import Mathlib

/-!
Shallow embedding of the orchestration core of the DDP_backend repository:
the Airbyte HTTP client (`abreq`, `get_source_schema_catalog`,
`create_connection`, `update_connection` from
`ddpui/ddpairbyte/airbyte_service.py`) and the celery task orchestrator
(`clone_github_repo`, `setup_dbtworkspace`, `run_dbt_commands`,
`delete_old_blocklocks`, `delete_old_tasklocks`, `setup_periodic_tasks`
from `ddpui/celeryworkers/tasks.py`).

Python dictionaries with string keys are embedded as ordered association
lists with unique keys (`PyDict`); arbitrary JSON values as `PyVal`.
Exceptions are embedded as an `Except PyExc` result; the remote HTTP
round-trip performed by `requests.post` is an input to the model (an
`Option AirbyteResponse`: `none` embeds `requests.exceptions.ConnectionError`).
-/

namespace DDP

/-- A Python/JSON value, as far as the embedded code inspects one. -/
inductive PyVal where
  | str : String → PyVal
  | int : Int → PyVal
  | bool : Bool → PyVal
  | list : List PyVal → PyVal
  | obj : List (String × PyVal) → PyVal
  | none : PyVal

/-- A Python dict with string keys: ordered association list, unique keys. -/
abbrev PyDict := List (String × PyVal)

/-- Key membership, `k in d` on a Python dict. -/
def hasKey (d : PyDict) (k : String) : Bool :=
  d.any (fun kv => kv.1 == k)

/-- Lookup, first (= only, keys unique) binding of `k`. -/
def dictGet : PyDict → String → Option PyVal
  | [], _ => Option.none
  | kv :: rest, k =>
      if kv.1 == k then Option.some kv.2 else dictGet rest k

/-- Exceptions raised by the embedded code. -/
inductive PyExc where
  | httpError (status : Nat) (message : String)
  | airbyteError (detail : String) (errors : PyVal)
  | keyError (key : String)
  | typeError (message : String)

/-- `d[k]` on a Python dict: the value, or a `KeyError`. -/
def dictIndex (d : PyDict) (k : String) : Except PyExc PyVal :=
  match dictGet d k with
  | Option.some v => Except.ok v
  | Option.none => Except.error (PyExc.keyError k)

/-- `v[k]` on a Python value: indexing anything but a dict is a `TypeError`. -/
def pyIndex (v : PyVal) (k : String) : Except PyExc PyVal :=
  match v with
  | PyVal.obj d => dictIndex d k
  | _ => Except.error (PyExc.typeError "value is not subscriptable by string")

/-! ## The External Job Client: `abreq` (airbyte_service.py lines 23-56) -/

/-- The `timeout=30` argument passed to `requests.post` in `abreq`. -/
def abreqTimeout : Nat := 30

/-- What the remote returned for one `requests.post`: HTTP status, whether
`"application/json"` occurs in the `Content-Type` header, and the parsed
JSON body. -/
structure AirbyteResponse where
  status_code : Nat
  contentTypeJson : Bool
  body : PyVal

/-- Embedding of `abreq` after the `requests.post` call is made an input:
`Option.none` embeds the connection failing
(`requests.exceptions.ConnectionError`), mapped to `HttpError(500, ...)`;
`res.raise_for_status()` raises exactly on a 4xx/5xx status, mapped to
`HttpError(res.status_code, ...)`; otherwise the parsed JSON body is
returned when the content type is JSON, and `{}` when it is not. -/
def abreq (resp : Option AirbyteResponse) : Except PyExc PyVal :=
  match resp with
  | Option.none =>
      Except.error (PyExc.httpError 500 "Error connecting to Airbyte server")
  | Option.some r =>
      if 400 ≤ r.status_code ∧ r.status_code < 600 then
        Except.error (PyExc.httpError r.status_code "Something went wrong")
      else if r.contentTypeJson then
        Except.ok r.body
      else
        Except.ok (PyVal.obj [])

/-! ## `get_source_schema_catalog` (airbyte_service.py lines 262-277) -/

/-- The extraction expression
`res["jobInfo"]["failureReason"]["externalMessage"]` on line 273. -/
def jobInfoFailureMessage (res : PyDict) : Except PyExc PyVal :=
  match dictIndex res "jobInfo" with
  | Except.error e => Except.error e
  | Except.ok ji =>
    match pyIndex ji "failureReason" with
    | Except.error e => Except.error e
    | Except.ok fr => pyIndex fr "externalMessage"

/-- Embedding of `get_source_schema_catalog` given the dict `res` that its
`abreq("sources/discover_schema", ...)` call returned. Mirrors the source:
if `"catalog"` is absent and `"jobInfo"` present, raise `AirbyteError` with
`res["jobInfo"]["failureReason"]["externalMessage"]`; if both are absent,
raise `AirbyteError` with `res["message"]`; else return `res` unchanged. -/
def get_source_schema_catalog (res : PyDict) : Except PyExc PyDict :=
  if ¬ hasKey res "catalog" ∧ hasKey res "jobInfo" then
    match jobInfoFailureMessage res with
    | Except.error e => Except.error e
    | Except.ok em =>
      Except.error (PyExc.airbyteError "Failed to get source schema catalogs" em)
  else if ¬ hasKey res "catalog" ∧ ¬ hasKey res "jobInfo" then
    match dictIndex res "message" with
    | Except.error e => Except.error e
    | Except.ok msg =>
      Except.error (PyExc.airbyteError "Failed to get source schema catalogs" msg)
  else
    Except.ok res

/-! ## The Catalog Negotiator: data model (airbyte_service.py lines 460-595) -/

/-- One entry of `connection_info.streams` as `create_connection` reads it:
`x["name"]`, `x["selected"]`, `x["syncMode"]`, `x["destinationSyncMode"]`. -/
structure StreamSelection where
  name : String
  selected : Bool
  syncMode : String
  destinationSyncMode : String
  deriving DecidableEq, Repr

/-- The `"stream"` part of a discovered catalog entry. -/
structure StreamDesc where
  name : String
  supportedSyncModes : List String
  deriving DecidableEq, Repr

/-- The `"config"` part of a discovered catalog entry, as far as the code
touches it. -/
structure StreamConfig where
  syncMode : String
  destinationSyncMode : String
  deriving DecidableEq, Repr

/-- One element of `sourceschemacatalog["catalog"]["streams"]`. -/
structure CatalogEntry where
  stream : StreamDesc
  config : StreamConfig
  deriving DecidableEq, Repr

/-- The successful result of `get_source_schema_catalog`, as far as
`create_connection`/`update_connection` read it: `res["catalogId"]` and
`res["catalog"]["streams"]`. -/
structure SourceCatalog where
  catalogId : String
  streams : List CatalogEntry
  deriving DecidableEq, Repr

/-- The fields of `schema.AirbyteConnectionCreate` that `create_connection`
reads. `destinationSchema = Option.none` embeds Python `None`. -/
structure AirbyteConnectionCreate where
  name : String
  sourceId : String
  destinationId : String
  destinationSchema : Option String
  normalize : Bool
  streams : List StreamSelection
  deriving DecidableEq, Repr

/-- One entry of `connection_info.streams` as `update_connection` would read
it: `x["name"]`, `x["selected"]`, `x["incremental"]`,
`x["destinationSyncMode"]`. -/
structure UpdStreamSelection where
  name : String
  selected : Bool
  incremental : Bool
  destinationSyncMode : String
  deriving DecidableEq, Repr

/-- The fields of `schema.AirbyteConnectionUpdate` that `update_connection`
reads. -/
structure AirbyteConnectionUpdate where
  name : String
  sourceId : String
  destinationId : String
  streams : List UpdStreamSelection
  deriving DecidableEq, Repr

/-- The `"operations"` entry `update_connection` always places in its
payload. -/
structure NormalizationOperation where
  name : String
  workspaceId : String
  operatorType : String
  normalizationOption : String
  deriving DecidableEq, Repr

/-- The connection payload assembled by `create_connection` (lines 478-516,
where `connectionId`/`operations` stay absent) and by `update_connection`
(lines 543-589, where `status`/`operationIds` stay absent). `prefixField`
embeds the payload key `"prefix"`. -/
structure ConnectionPayload where
  connectionId : Option String
  sourceId : String
  destinationId : String
  sourceCatalogId : String
  syncCatalogStreams : List CatalogEntry
  status : Option String
  prefixField : String
  namespaceDefinition : String
  namespaceFormat : String
  nonBreakingChangesPreference : String
  scheduleType : String
  geography : String
  name : String
  operationIds : Option (List String)
  operations : Option (List NormalizationOperation)
  deriving DecidableEq, Repr

/-! ## `create_connection` (airbyte_service.py lines 460-522) -/

/-- Insertion into a Python dict keyed by stream name: an existing key keeps
its position and gets the new value, a new key is appended. -/
def selDictSet (d : List (String × StreamSelection)) (k : String)
    (v : StreamSelection) : List (String × StreamSelection) :=
  match d with
  | [] => [(k, v)]
  | (k1, v1) :: rest =>
      if k1 == k then (k1, v) :: rest else (k1, v1) :: selDictSet rest k v

/-- Lookup in such a dict (keys are unique, first hit is the binding). -/
def selDictGet : List (String × StreamSelection) → String →
    Option StreamSelection
  | [], _ => Option.none
  | kv :: rest, k =>
      if kv.1 == k then Option.some kv.2 else selDictGet rest k

/-- The dict comprehension on line 504:
`selected_streams = \x7bx["name"]: x for x in connection_info.streams\x7d`. -/
def createSelectedStreams (sels : List StreamSelection) :
    List (String × StreamSelection) :=
  sels.foldl (fun d x => selDictSet d x.name x) []

/-- One iteration of the stream loop on lines 505-516: a catalog entry
whose stream name is a key of `selected_streams` with `["selected"]` true
gets its `config.syncMode` / `config.destinationSyncMode` overwritten from
the selection and is appended to the payload's stream list; every other
entry is skipped. -/
def createStreamStep (sels : List StreamSelection)
    (acc : List CatalogEntry) (schema_cat : CatalogEntry) :
    List CatalogEntry :=
  match selDictGet (createSelectedStreams sels) schema_cat.stream.name with
  | Option.some x =>
      if x.selected then
        acc ++ [{ schema_cat with
                  config := { syncMode := x.syncMode,
                              destinationSyncMode := x.destinationSyncMode } }]
      else acc
  | Option.none => acc

/-- The stream loop on lines 505-516: walk the discovered catalog in
order, appending the negotiated entries. -/
def createSyncStreams (sels : List StreamSelection)
    (catalog : List CatalogEntry) : List CatalogEntry :=
  catalog.foldl (createStreamStep sels) []

/-- Embedding of `create_connection`. The remote round-trip made by its
`get_source_schema_catalog` call is the input `discovered`; the second
component of the result counts how many times that fetch was invoked. The
returned payload is the value the source passes to
`abreq("connections/create", payload)`. -/
def create_connection (workspace_id : String) (airbyte_norm_op_id : String)
    (connection_info : AirbyteConnectionCreate)
    (discovered : Except PyExc SourceCatalog) :
    Except PyExc ConnectionPayload × Nat :=
  if connection_info.streams.length = 0 then
    (Except.error (PyExc.httpError 400 "must specify at least one stream"), 0)
  else
    match discovered with
    | Except.error e => (Except.error e, 1)
    | Except.ok sourceschemacatalog =>
      let base : ConnectionPayload :=
        { connectionId := Option.none
          sourceId := connection_info.sourceId
          destinationId := connection_info.destinationId
          sourceCatalogId := sourceschemacatalog.catalogId
          syncCatalogStreams :=
            createSyncStreams connection_info.streams sourceschemacatalog.streams
          status := Option.some "active"
          prefixField := ""
          namespaceDefinition := "destination"
          namespaceFormat := "$\x7bSOURCE_NAMESPACE\x7d"
          nonBreakingChangesPreference := "ignore"
          scheduleType := "manual"
          geography := "auto"
          name := connection_info.name
          operationIds := Option.none
          operations := Option.none }
      let p1 :=
        match connection_info.destinationSchema with
        | Option.some s =>
            if s == "" then base
            else { base with namespaceDefinition := "customformat",
                             namespaceFormat := s }
        | Option.none => base
      let p2 :=
        if connection_info.normalize then
          { p1 with operationIds := Option.some [airbyte_norm_op_id] }
        else p1
      (Except.ok p2, 1)

/-! ## `update_connection` (airbyte_service.py lines 525-595) -/

/-- `x` as a Python dict, the way an update selection is stored. -/
def UpdStreamSelection.toPy (x : UpdStreamSelection) : PyVal :=
  PyVal.obj [("name", PyVal.str x.name), ("selected", PyVal.bool x.selected),
             ("incremental", PyVal.bool x.incremental),
             ("destinationSyncMode", PyVal.str x.destinationSyncMode)]

/-- The list comprehension on line 573:
`selected_streams = [\x7bx["name"]: x\x7d for x in connection_info.streams]`
— a LIST of single-entry dicts, not a dict. -/
def updSelectedStreams (sels : List UpdStreamSelection) : List PyVal :=
  sels.map (fun x => PyVal.obj [(x.name, x.toPy)])

/-- Python `s in l` for a string `s` and a list `l`: true iff some element
compares equal to `s`, and a non-string element never does. -/
def pyListContainsStr (l : List PyVal) (s : String) : Bool :=
  l.any (fun v =>
    match v with
    | PyVal.str t => s == t
    | _ => false)

/-- The stream loop on lines 574-589: for each catalog entry the guard is
`stream_name in selected_streams and selected_streams[stream_name]["selected"]`.
If the membership test succeeded, `selected_streams[stream_name]` — indexing a
LIST with a string — would raise a `TypeError`; if it fails, the `and`
short-circuits and the entry is skipped. -/
def updStreamStep (sels : List UpdStreamSelection)
    (acc : List CatalogEntry) (schema_cat : CatalogEntry) :
    Except PyExc (List CatalogEntry) :=
  if pyListContainsStr (updSelectedStreams sels) schema_cat.stream.name then
    Except.error
      (PyExc.typeError "list indices must be integers or slices, not str")
  else
    Except.ok acc

/-- The stream loop on lines 574-589, iterating `updStreamStep` over the
discovered catalog. -/
def updSyncStreams (sels : List UpdStreamSelection)
    (catalog : List CatalogEntry) : Except PyExc (List CatalogEntry) :=
  catalog.foldlM (updStreamStep sels) []

/-- Embedding of `update_connection`, with the same conventions as
`create_connection`: `discovered` is the remote fetch outcome, the second
component counts fetch invocations, and the payload is the value the source
passes to `abreq("connections/update", payload)`. -/
def update_connection (workspace_id : String) (connection_id : String)
    (connection_info : AirbyteConnectionUpdate)
    (discovered : Except PyExc SourceCatalog) :
    Except PyExc ConnectionPayload × Nat :=
  if connection_info.streams.length = 0 then
    (Except.error (PyExc.httpError 400 "must specify at least one stream"), 0)
  else
    match discovered with
    | Except.error e => (Except.error e, 1)
    | Except.ok sourceschemacatalog =>
      match updSyncStreams connection_info.streams sourceschemacatalog.streams with
      | Except.error e => (Except.error e, 1)
      | Except.ok strms =>
        (Except.ok
          { connectionId := Option.some connection_id
            sourceId := connection_info.sourceId
            destinationId := connection_info.destinationId
            sourceCatalogId := sourceschemacatalog.catalogId
            syncCatalogStreams := strms
            status := Option.none
            prefixField := ""
            namespaceDefinition := "destination"
            namespaceFormat := "$\x7bSOURCE_NAMESPACE\x7d"
            nonBreakingChangesPreference := "ignore"
            scheduleType := "manual"
            geography := "auto"
            name := connection_info.name
            operationIds := Option.none
            operations := Option.some
              [{ name := "Normalization"
                 workspaceId := workspace_id
                 operatorType := "normalization"
                 normalizationOption := "basic" }] }, 1)

/-! ## Progress Channel events (ddpui/utils/taskprogress.py callers) -/

/-- One progress record passed to `taskprogress.add(...)` in
`celeryworkers/tasks.py`: message, status, optional error detail, optional
captured process output lines. -/
structure Event where
  message : String
  status : String
  error : Option String
  output : Option (List String)
  deriving DecidableEq, Repr

/-- An event carrying only a message and a status. -/
def ev (message status : String) : Event :=
  { message := message, status := status, error := Option.none,
    output := Option.none }

/-! ## `clone_github_repo` (tasks.py lines 27-86) -/

/-- Embedding of `clone_github_repo`. Filesystem state and the `runcmd`
outcome are inputs: `projectDirExists`/`dbtrepoDirExists` are the two
`.exists()` probes, and `cloneResult` is the `runcmd(cmd, project_dir)`
call (`Except.error e` embeds the raised exception, stringified). `child`
is true when a shared `taskprogress` was passed in (the `setup_dbtworkspace`
call site) and false for the standalone task. The result is (events this
call appends to its progress channel in order, the Boolean return value). -/
def clone_github_repo (projectDirExists : Bool) (dbtrepoDirExists : Bool)
    (cloneResult : Except String Unit) (child : Bool) :
    List Event × Bool :=
  let evs0 :=
    if ¬ projectDirExists then [ev "created project_dir" "running"] else []
  match cloneResult with
  | Except.error error =>
      (evs0 ++ [{ message := "git clone failed", status := "failed",
                  error := Option.some error, output := Option.none }], false)
  | Except.ok _ =>
      (evs0 ++ [ev "cloned git repo" (if child then "running" else "completed")],
       true)

/-! ## `setup_dbtworkspace` (tasks.py lines 89-156) -/

/-- The `OrgDbt` record that `setup_dbtworkspace` constructs and saves. -/
structure OrgDbt where
  gitrepo_url : String
  project_dir : String
  dbt_venv : String
  target_type : String
  default_schema : String
  transform_type : String
  deriving DecidableEq, Repr

/-- The warehouse row, as far as the task reads it (`warehouse.wtype`). -/
structure OrgWarehouse where
  wtype : String
  deriving DecidableEq, Repr

/-- The payload dict of `setup_dbtworkspace`: `payload["gitrepoUrl"]`,
`payload["gitrepoAccessToken"]`,
`payload["profile"]["target_configs_schema"]`. -/
structure SetupPayload where
  gitrepoUrl : String
  gitrepoAccessToken : Option String
  target_configs_schema : String
  deriving DecidableEq, Repr

/-- Everything `setup_dbtworkspace` leaves behind: the events appended to
its progress channel, the `OrgDbt` row saved by `dbt.save()` (if reached),
and the org link written by `org.dbt = dbt; org.save()` (if reached). -/
structure SetupResult where
  events : List Event
  savedDbt : Option OrgDbt
  orgDbtLink : Option OrgDbt
  deriving DecidableEq, Repr

/-- Embedding of `setup_dbtworkspace`. Database state and environment are
inputs: `warehouse` is `OrgWarehouse.objects.filter(org=org).first()`,
`slug` the org's slug after the slugify-if-missing step, `clientdbtRoot`
and `dbtVenv` the two environment variables, and the clone inputs are
passed through to the child `clone_github_repo` call (which shares this
task's progress channel, hence `child := true`). -/
def setup_dbtworkspace (warehouse : Option OrgWarehouse) (slug : String)
    (clientdbtRoot : String) (dbtVenv : String) (payload : SetupPayload)
    (projectDirExists : Bool) (dbtrepoDirExists : Bool)
    (cloneResult : Except String Unit) : SetupResult :=
  let started := [ev "started" "running"]
  match warehouse with
  | Option.none =>
      { events := started ++ [ev "need to set up a warehouse first" "failed"],
        savedDbt := Option.none, orgDbtLink := Option.none }
  | Option.some warehouse =>
      let project_dir := clientdbtRoot ++ "/" ++ slug
      let cloned :=
        clone_github_repo projectDirExists dbtrepoDirExists cloneResult true
      if ¬ cloned.2 then
        { events := started ++ cloned.1,
          savedDbt := Option.none, orgDbtLink := Option.none }
      else
        let dbt : OrgDbt :=
          { gitrepo_url := payload.gitrepoUrl
            project_dir := project_dir
            dbt_venv := dbtVenv
            target_type := warehouse.wtype
            default_schema := payload.target_configs_schema
            transform_type := "github" }
        { events := started ++ cloned.1 ++ [ev "wrote OrgDbt entry" "completed"],
          savedDbt := Option.some dbt, orgDbtLink := Option.some dbt }

/-! ## `run_dbt_commands` (tasks.py lines 159-283) -/

/-- The command string `f"\x7bdbt_binary\x7d clean --profiles-dir=profiles"`
and its two siblings. -/
def dbtCommand (dbtBinary : String) (verb : String) : String :=
  dbtBinary ++ " " ++ verb ++ " --profiles-dir=profiles"

/-- Result of `run_dbt_commands`: the events appended to the progress
channel, and the list of command strings handed to `runcmd_with_output`, in
invocation order. -/
structure RunDbtResult where
  events : List Event
  invocations : List String
  deriving DecidableEq, Repr

/-- Embedding of `run_dbt_commands`. Database state and process outcomes
are inputs: `orgdbt` is `OrgDbt.objects...first()`, `cliProfileExists`
whether the `OrgPrefectBlockv1` row with block type `DBTCLIPROFILE` exists,
and `cleanResult`/`depsResult`/`runResult` the three
`runcmd_with_output` calls (`Except.ok lines` embeds
`process.stdout.decode("utf-8").split("\n")`, `Except.error e` a raised
`subprocess.CalledProcessError`, stringified). Each command is only
consumed from its input — recorded in `invocations` — when the source
actually invokes the process. -/
def run_dbt_commands (orgdbt : Option OrgDbt) (cliProfileExists : Bool)
    (dbtBinary : String) (cleanResult depsResult runResult :
      Except String (List String)) : RunDbtResult :=
  let started := [ev "started" "running"]
  match orgdbt with
  | Option.none =>
      { events := started ++ [ev "need to set up a dbt workspace first" "failed"],
        invocations := [] }
  | Option.some _ =>
    if ¬ cliProfileExists then
      { events := started ++ [ev "need to set up a dbt cli profile first" "failed"],
        invocations := [] }
    else
      let evs1 := started ++ [ev "starting dbt clean" "running"]
      let inv1 := [dbtCommand dbtBinary "clean"]
      match cleanResult with
      | Except.error error =>
          { events := evs1 ++ [{ message := "dbt clean failed", status := "failed",
                                 error := Option.some error,
                                 output := Option.none }],
            invocations := inv1 }
      | Except.ok command_output =>
        let evs2 := evs1 ++
          [{ message := "dbt clean output", status := "running",
             error := Option.none, output := Option.some command_output }] ++
          [ev "starting dbt deps" "running"]
        let inv2 := inv1 ++ [dbtCommand dbtBinary "deps"]
        match depsResult with
        | Except.error error =>
            { events := evs2 ++ [{ message := "dbt deps failed", status := "failed",
                                   error := Option.some error,
                                   output := Option.none }],
              invocations := inv2 }
        | Except.ok command_output2 =>
          let evs3 := evs2 ++
            [{ message := "dbt deps output", status := "running",
               error := Option.none, output := Option.some command_output2 }] ++
            [ev "starting dbt run" "running"]
          let inv3 := inv2 ++ [dbtCommand dbtBinary "run"]
          match runResult with
          | Except.error error =>
              { events := evs3 ++ [{ message := "dbt run failed", status := "failed",
                                     error := Option.some error,
                                     output := Option.none }],
                invocations := inv3 }
          | Except.ok command_output3 =>
              { events := evs3 ++
                  [{ message := "dbt run output", status := "running",
                     error := Option.none, output := Option.some command_output3 }] ++
                  [ev "dbt run completed" "completed"],
                invocations := inv3 }

/-! ## Lock sweeps (tasks.py lines 293-315) -/

/-- A `BlockLock` row, as far as the sweep reads it. -/
structure BlockLock where
  resource_key : String
  holder : String
  locked_at : Int
  deriving DecidableEq, Repr

/-- A `TaskLock` row, as far as the sweep reads it. -/
structure TaskLock where
  resource_key : String
  holder : String
  locked_at : Int
  deriving DecidableEq, Repr

/-- Embedding of `delete_old_blocklocks` run at time `now` (seconds):
`onehourago = utcnow() - timedelta(seconds=3600)`, then
`BlockLock.objects.filter(locked_at__lt=onehourago).delete()`. The result
is the table after the delete: the rows whose `locked_at` is NOT strictly
below `now - 3600`. -/
def delete_old_blocklocks (now : Int) (table : List BlockLock) :
    List BlockLock :=
  table.filter (fun l => ¬ l.locked_at < now - 3600)

/-- Embedding of `delete_old_tasklocks`, identical sweep over the
`TaskLock` table. -/
def delete_old_tasklocks (now : Int) (table : List TaskLock) :
    List TaskLock :=
  table.filter (fun l => ¬ l.locked_at < now - 3600)

/-- Embedding of `setup_periodic_tasks`: the `(interval-seconds, name)`
pairs handed to `sender.add_periodic_task` (the interval `60 * 1.0` is the
exact real number 60). -/
def setup_periodic_tasks : List (Int × String) :=
  [(60, "remove old blocklocks"), (60, "remove old tasklocks")]

/-! ## Spec-side description of the create-connection stream negotiation -/

/-- Modelled from the spec's words: the selection matching a stream name,
"selections indexed by name, last write wins on duplicate names". -/
def specSelectionFor (sels : List StreamSelection) (name : String) :
    Option StreamSelection :=
  sels.reverse.find? (fun s => s.name == name)

/-- Modelled from the spec's words: the output stream list "contains
exactly those remote catalog entries whose stream name equals the name of
some selection with selected = true, each such entry copied with its
config.syncMode and config.destinationSyncMode overwritten from the
matching selection; entries with no matching selection, or whose matching
selection has selected = false, do not appear". To be compared with
`createSyncStreams`, the definition taken from the source. -/
def specSyncStreams (sels : List StreamSelection)
    (catalog : List CatalogEntry) : List CatalogEntry :=
  catalog.filterMap (fun e =>
    match specSelectionFor sels e.stream.name with
    | Option.some s =>
        if s.selected then
          Option.some { e with
                        config := { syncMode := s.syncMode,
                                    destinationSyncMode := s.destinationSyncMode } }
        else Option.none
    | Option.none => Option.none)

/-! ## Concrete sample values used to evaluate the definitions -/

/-- A sample update-selection entry. -/
def updSelT : UpdStreamSelection :=
  { name := "t", selected := true, incremental := true,
    destinationSyncMode := "a" }

/-- A sample update request selecting the stream `t`. -/
def updInfoT : AirbyteConnectionUpdate :=
  { name := "n", sourceId := "s", destinationId := "d",
    streams := [updSelT] }

/-- A sample update request with an empty selection list. -/
def updInfoEmpty : AirbyteConnectionUpdate :=
  { name := "n", sourceId := "s", destinationId := "d", streams := [] }

/-- A discovered catalog with no streams. -/
def catEmpty : SourceCatalog := { catalogId := "i", streams := [] }

/-- Selection of stream `A`, selected, incremental. -/
def selA : StreamSelection :=
  { name := "A", selected := true, syncMode := "incremental",
    destinationSyncMode := "append" }

/-- Selection of stream `B`, not selected. -/
def selB : StreamSelection :=
  { name := "B", selected := false, syncMode := "full_refresh",
    destinationSyncMode := "overwrite" }

/-- A discovered catalog entry for a stream called `nm`. -/
def catEntry (nm : String) : CatalogEntry :=
  { stream := { name := nm, supportedSyncModes := ["full_refresh"] },
    config := { syncMode := "full_refresh",
                destinationSyncMode := "overwrite" } }

/-- A discovered catalog with streams `A`, `B`, `C`. -/
def catABC : SourceCatalog :=
  { catalogId := "i", streams := [catEntry "A", catEntry "B", catEntry "C"] }

/-- A sample create request selecting `A` and deselecting `B`. -/
def createInfoAB : AirbyteConnectionCreate :=
  { name := "n", sourceId := "s", destinationId := "d",
    destinationSchema := Option.none, normalize := false,
    streams := [selA, selB] }

/-- A sample create request with an empty selection list. -/
def createInfoEmpty : AirbyteConnectionCreate :=
  { name := "n", sourceId := "s", destinationId := "d",
    destinationSchema := Option.none, normalize := false, streams := [] }

/-- A sample create request with a destination-schema override and
normalization requested. -/
def createInfoSchema : AirbyteConnectionCreate :=
  { name := "n", sourceId := "s", destinationId := "d",
    destinationSchema := Option.some "sch", normalize := true,
    streams := [selA] }

/-- A discover-schema response in the job-failure shape: no `catalog` key,
a `jobInfo` object carrying `failureReason.externalMessage`. -/
def resJobShape : PyDict :=
  [("jobInfo", PyVal.obj
      [("failureReason", PyVal.obj [("externalMessage", PyVal.str "boom")])])]

/-- A discover-schema response that carries a catalog. -/
def resWithCatalog : PyDict :=
  [("catalogId", PyVal.str "i"), ("catalog", PyVal.obj [("streams", PyVal.list [])])]

/-- A remote response with HTTP status 304 (not 2xx, not 4xx/5xx). -/
def resp304 : AirbyteResponse :=
  { status_code := 304, contentTypeJson := true, body := PyVal.obj [] }

/-- A remote response with HTTP status 404. -/
def resp404 : AirbyteResponse :=
  { status_code := 404, contentTypeJson := true, body := PyVal.none }

/-- A sample warehouse row. -/
def wh1 : OrgWarehouse := { wtype := "postgres" }

/-- A sample setup payload. -/
def payload1 : SetupPayload :=
  { gitrepoUrl := "https://github.com/o/r", gitrepoAccessToken := Option.none,
    target_configs_schema := "prod" }

/-- A sample org-dbt row. -/
def orgdbt1 : OrgDbt :=
  { gitrepo_url := "https://github.com/o/r", project_dir := "/root/o",
    dbt_venv := "/venv", target_type := "postgres", default_schema := "prod",
    transform_type := "github" }

/-- A block lock created 3601 seconds before time 0. -/
def blockOld : BlockLock := { resource_key := "k1", holder := "h1", locked_at := -3601 }

/-- A block lock created 3599 seconds before time 0. -/
def blockFresh : BlockLock := { resource_key := "k2", holder := "h2", locked_at := -3599 }

/-- A task lock created 3601 seconds before time 0. -/
def taskOld : TaskLock := { resource_key := "k3", holder := "h3", locked_at := -3601 }

/-! # Helper lemmas -/

theorem selDictGet_selDictSet (k : String) (v : StreamSelection) :
    ∀ (d : List (String × StreamSelection)) (k' : String),
    selDictGet (selDictSet d k v) k' =
      if k' = k then Option.some v else selDictGet d k' := by
  intro d
  induction d with
  | nil =>
    intro k'
    by_cases h : k' = k
    · subst h; simp [selDictSet, selDictGet]
    · have hb : (k == k') = false := beq_eq_false_iff_ne.mpr (fun h2 => h h2.symm)
      simp [selDictSet, selDictGet, hb, h]
  | cons kv rest ih =>
    intro k'
    obtain ⟨k1, v1⟩ := kv
    simp only [selDictSet]
    by_cases h1 : k1 = k
    · subst h1
      simp only [beq_self_eq_true, if_true]
      by_cases h2 : k' = k1
      · subst h2; simp [selDictGet]
      · have h2b : (k1 == k') = false :=
          beq_eq_false_iff_ne.mpr (fun h3 => h2 h3.symm)
        simp [selDictGet, h2b, h2]
    · have h1b : (k1 == k) = false := beq_eq_false_iff_ne.mpr h1
      simp only [h1b, Bool.false_eq_true, if_false]
      by_cases h2 : k1 = k'
      · subst h2
        have hk : ¬ k1 = k := h1
        simp [selDictGet, hk]
      · have h2b : (k1 == k') = false := beq_eq_false_iff_ne.mpr h2
        simp [selDictGet, h2b, ih]

theorem createSelectedStreams_get (name : String) :
    ∀ (sels : List StreamSelection)
      (d : List (String × StreamSelection)),
    selDictGet (sels.foldl (fun d x => selDictSet d x.name x) d) name =
      match sels.reverse.find? (fun s => s.name == name) with
      | Option.some s => Option.some s
      | Option.none => selDictGet d name := by
  intro sels
  induction sels with
  | nil => intro d; simp
  | cons x xs ih =>
    intro d
    simp only [List.foldl_cons, List.reverse_cons, List.find?_append, ih,
      selDictGet_selDictSet]
    cases hfind : xs.reverse.find? (fun s => s.name == name) with
    | some s => simp [hfind]
    | none =>
      simp only [hfind, Option.none_or]
      by_cases hx : x.name = name
      · simp [List.find?, hx]
      · have hxb : (x.name == name) = false := beq_eq_false_iff_ne.mpr hx
        simp only [List.find?, hxb]
        exact if_neg (fun h => hx h.symm)

theorem createSelectedStreams_spec (sels : List StreamSelection)
    (name : String) :
    selDictGet (createSelectedStreams sels) name = specSelectionFor sels name := by
  rw [createSelectedStreams, createSelectedStreams_get name sels []]
  unfold specSelectionFor
  cases hfind : sels.reverse.find? (fun s => s.name == name) <;>
    simp [selDictGet, hfind]

theorem createSyncStreams_foldl (sels : List StreamSelection) :
    ∀ (catalog : List CatalogEntry) (acc : List CatalogEntry),
    catalog.foldl (createStreamStep sels) acc =
      acc ++ specSyncStreams sels catalog := by
  intro catalog
  induction catalog with
  | nil => intro acc; simp [specSyncStreams]
  | cons e rest ih =>
    intro acc
    simp only [List.foldl_cons, specSyncStreams, List.filterMap_cons]
    have hstep : createStreamStep sels acc e =
        match specSelectionFor sels e.stream.name with
        | Option.some x =>
            if x.selected then
              acc ++ [{ e with
                        config := { syncMode := x.syncMode,
                                    destinationSyncMode := x.destinationSyncMode } }]
            else acc
        | Option.none => acc := by
      rw [createStreamStep, createSelectedStreams_spec]
    rw [hstep]
    cases hsel : specSelectionFor sels e.stream.name with
    | none => simp [hsel, ih, specSyncStreams]
    | some x =>
      by_cases hx : x.selected
      · simp [hsel, hx, ih, specSyncStreams, List.append_assoc]
      · simp [hsel, hx, ih, specSyncStreams]

theorem createSyncStreams_eq_spec (sels : List StreamSelection)
    (catalog : List CatalogEntry) :
    createSyncStreams sels catalog = specSyncStreams sels catalog := by
  rw [createSyncStreams, createSyncStreams_foldl]
  simp

theorem pyListContainsStr_updSelectedStreams (sels : List UpdStreamSelection)
    (s : String) :
    pyListContainsStr (updSelectedStreams sels) s = false := by
  induction sels with
  | nil => rfl
  | cons x xs ih =>
    simpa [pyListContainsStr, updSelectedStreams] using
      (by simpa [pyListContainsStr, updSelectedStreams] using ih :
        (updSelectedStreams xs).any _ = false)

theorem updSyncStreams_ok (sels : List UpdStreamSelection) :
    ∀ (catalog : List CatalogEntry) (acc : List CatalogEntry),
    catalog.foldlM (updStreamStep sels) acc = Except.ok acc := by
  intro catalog
  induction catalog with
  | nil => intro acc; rfl
  | cons e rest ih =>
    intro acc
    rw [List.foldlM_cons]
    have hstep : updStreamStep sels acc e = Except.ok acc := by
      rw [updStreamStep, pyListContainsStr_updSelectedStreams]
      rfl
    rw [hstep]
    simpa using ih acc

theorem updSyncStreams_eq_ok (sels : List UpdStreamSelection)
    (catalog : List CatalogEntry) :
    updSyncStreams sels catalog = Except.ok [] := by
  rw [updSyncStreams]; exact updSyncStreams_ok sels catalog []

/-! # Claim theorems -/

/-- C1: in `update_connection`, for every non-empty selection list and
every discovered source catalog, the selection index is a list of
single-entry dicts, so the membership test of each catalog stream name
against that index is false for every stream; consequently the assembled
update payload's syncCatalog streams list is empty regardless of which
streams were selected. -/
theorem update_connection_sync_catalog_empty
    (workspace_id connection_id : String)
    (connection_info : AirbyteConnectionUpdate) (cat : SourceCatalog)
    (hne : connection_info.streams ≠ []) :
    (∀ e ∈ cat.streams,
      pyListContainsStr (updSelectedStreams connection_info.streams)
        e.stream.name = false) ∧
    ∃ p, (update_connection workspace_id connection_id connection_info
            (Except.ok cat)).1 = Except.ok p ∧
         p.syncCatalogStreams = [] := by
  have hlen : ¬ connection_info.streams.length = 0 := by
    simpa [List.length_eq_zero] using hne
  refine ⟨fun e _ => pyListContainsStr_updSelectedStreams _ _, ?_⟩
  simp only [update_connection, hlen, if_false, updSyncStreams_eq_ok]
  exact ⟨_, rfl, rfl⟩

theorem update_connection_sync_catalog_empty_witness :
    updInfoT.streams ≠ [] ∧
    ((∀ e ∈ catEmpty.streams,
        pyListContainsStr (updSelectedStreams updInfoT.streams)
          e.stream.name = false) ∧
     ∃ p, (update_connection "w" "c" updInfoT (Except.ok catEmpty)).1 =
            Except.ok p ∧
          p.syncCatalogStreams = []) :=
  ⟨by decide,
   update_connection_sync_catalog_empty "w" "c" updInfoT catEmpty (by decide)⟩

/-- C2: in `create_connection`, for every discovered source catalog and
every non-empty selection list, the payload's syncCatalog streams are
exactly those remote catalog entries whose stream name matches a selection
with selected = true (index by name, last write wins), each copied with
config.syncMode and config.destinationSyncMode overwritten from the
matching selection; unmatched or unselected entries are dropped. Stated
as equality with `specSyncStreams`, the definition modelled from the
spec's words. -/
theorem create_connection_sync_catalog
    (workspace_id airbyte_norm_op_id : String)
    (connection_info : AirbyteConnectionCreate) (cat : SourceCatalog)
    (hne : connection_info.streams ≠ []) :
    ∃ p, (create_connection workspace_id airbyte_norm_op_id connection_info
            (Except.ok cat)).1 = Except.ok p ∧
         p.syncCatalogStreams =
           specSyncStreams connection_info.streams cat.streams := by
  have hlen : ¬ connection_info.streams.length = 0 := by
    simpa [List.length_eq_zero] using hne
  simp only [create_connection, hlen, if_false]
  cases connection_info.destinationSchema with
  | none =>
      cases connection_info.normalize <;>
        exact ⟨_, rfl, createSyncStreams_eq_spec _ _⟩
  | some s =>
      by_cases hs : s == "" <;> simp only [hs, Bool.false_eq_true, if_false,
        if_true] <;> cases connection_info.normalize <;>
        exact ⟨_, rfl, createSyncStreams_eq_spec _ _⟩

theorem create_connection_sync_catalog_witness :
    createInfoAB.streams ≠ [] ∧
    (∃ p, (create_connection "w" "op" createInfoAB (Except.ok catABC)).1 =
            Except.ok p ∧
          p.syncCatalogStreams =
            specSyncStreams createInfoAB.streams catABC.streams) ∧
    specSyncStreams createInfoAB.streams catABC.streams =
      [{ stream := { name := "A", supportedSyncModes := ["full_refresh"] },
         config := { syncMode := "incremental",
                     destinationSyncMode := "append" } }] :=
  ⟨by decide,
   create_connection_sync_catalog "w" "op" createInfoAB catABC (by decide),
   by decide⟩

/-- C3: both `create_connection` and `update_connection`, called with an
empty streams list, fail with HTTP 400 "must specify at least one stream"
and make zero remote catalog fetches. -/
theorem connection_empty_streams_reject
    (workspace_id airbyte_norm_op_id connection_id : String)
    (ci : AirbyteConnectionCreate) (cu : AirbyteConnectionUpdate)
    (d1 d2 : Except PyExc SourceCatalog)
    (h1 : ci.streams = []) (h2 : cu.streams = []) :
    create_connection workspace_id airbyte_norm_op_id ci d1 =
      (Except.error (PyExc.httpError 400 "must specify at least one stream"), 0) ∧
    update_connection workspace_id connection_id cu d2 =
      (Except.error (PyExc.httpError 400 "must specify at least one stream"), 0) := by
  constructor
  · simp [create_connection, h1]
  · simp [update_connection, h2]

theorem connection_empty_streams_reject_witness :
    createInfoEmpty.streams = [] ∧ updInfoEmpty.streams = [] ∧
    (create_connection "w" "op" createInfoEmpty (Except.ok catEmpty) =
      (Except.error (PyExc.httpError 400 "must specify at least one stream"), 0) ∧
     update_connection "w" "c" updInfoEmpty (Except.ok catEmpty) =
      (Except.error (PyExc.httpError 400 "must specify at least one stream"), 0)) :=
  ⟨rfl, rfl,
   connection_empty_streams_reject "w" "op" "c" createInfoEmpty updInfoEmpty
     (Except.ok catEmpty) (Except.ok catEmpty) rfl rfl⟩

/-- C4 counterexample: `update_connection` attaches a normalization
operation to its payload although the caller did not (and cannot) request
normalization: the update request schema carries no normalization flag,
yet the assembled payload's operations list holds the normalization
operation; the payload's namespaceDefinition is likewise fixed at
"destination", with no destination-schema override path. -/
theorem update_connection_payload_policy_cex :
    ((update_connection "w1" "c1" updInfoT (Except.ok catEmpty)).1.map
       (fun p => p.operations)) =
      Except.ok (Option.some
        [{ name := "Normalization", workspaceId := "w1",
           operatorType := "normalization", normalizationOption := "basic" }]) ∧
    ((update_connection "w1" "c1" updInfoT (Except.ok catEmpty)).1.map
       (fun p => p.namespaceDefinition)) = Except.ok "destination" :=
  ⟨rfl, rfl⟩

/-- C4 amended: for `create_connection` the claim holds as stated
(namespaceDefinition "destination" unless a non-empty destinationSchema
override was supplied, which switches it to "customformat" with that
schema as namespaceFormat; the normalization operation id attached iff
normalization was requested; scheduleType "manual" and geography "auto").
`update_connection`, however, always uses namespaceDefinition
"destination" and always attaches a normalization operation in its
`operations` list, regardless of caller input. -/
theorem connection_payload_policy
    (workspace_id airbyte_norm_op_id connection_id : String)
    (ci : AirbyteConnectionCreate) (cu : AirbyteConnectionUpdate)
    (cat cat2 : SourceCatalog) :
    (∀ p, (create_connection workspace_id airbyte_norm_op_id ci
            (Except.ok cat)).1 = Except.ok p →
      ((ci.destinationSchema = Option.none ∨
        ci.destinationSchema = Option.some "") →
          p.namespaceDefinition = "destination" ∧
          p.namespaceFormat = "$\x7bSOURCE_NAMESPACE\x7d") ∧
      (∀ s, ci.destinationSchema = Option.some s → s ≠ "" →
          p.namespaceDefinition = "customformat" ∧ p.namespaceFormat = s) ∧
      (p.operationIds =
        if ci.normalize then Option.some [airbyte_norm_op_id]
        else Option.none) ∧
      p.operations = Option.none ∧
      p.scheduleType = "manual" ∧ p.geography = "auto") ∧
    (∀ p, (update_connection workspace_id connection_id cu
            (Except.ok cat2)).1 = Except.ok p →
      p.namespaceDefinition = "destination" ∧
      p.namespaceFormat = "$\x7bSOURCE_NAMESPACE\x7d" ∧
      p.operations = Option.some
        [{ name := "Normalization", workspaceId := workspace_id,
           operatorType := "normalization", normalizationOption := "basic" }] ∧
      p.operationIds = Option.none ∧
      p.scheduleType = "manual" ∧ p.geography = "auto") := by
  constructor
  · intro p hp
    by_cases hlen : ci.streams.length = 0
    · simp [create_connection, hlen] at hp
    · simp only [create_connection, hlen, if_false] at hp
      cases hds : ci.destinationSchema with
      | none =>
          cases hn : ci.normalize <;> rw [hds, hn] at hp <;>
            simp only [Bool.false_eq_true, if_false, if_true,
              Except.ok.injEq] at hp <;> subst hp <;> simp [hds, hn]
      | some s0 =>
          by_cases hs0 : s0 == ""
          · have hs0' : s0 = "" := by simpa using hs0
            subst hs0'
            cases hn : ci.normalize <;> rw [hds, hn] at hp <;>
              simp only [beq_self_eq_true, if_true, Bool.false_eq_true,
                if_false, Except.ok.injEq] at hp <;> subst hp <;>
              simp [hds, hn]
          · have hs0' : ¬ s0 = "" := by simpa using hs0
            cases hn : ci.normalize <;> rw [hds, hn] at hp <;>
              simp only [hs0, Bool.false_eq_true, if_false, if_true,
                Except.ok.injEq] at hp <;> subst hp <;>
              simp [hds, hn, hs0']
  · intro p hp
    by_cases hlen : cu.streams.length = 0
    · simp [update_connection, hlen] at hp
    · simp only [update_connection, hlen, if_false, updSyncStreams_eq_ok,
        Except.ok.injEq] at hp
      subst hp
      exact ⟨rfl, rfl, rfl, rfl, rfl, rfl⟩

theorem connection_payload_policy_witness :
    ∃ p, (create_connection "w" "op" createInfoSchema (Except.ok catEmpty)).1 =
           Except.ok p ∧
         p.namespaceDefinition = "customformat" ∧ p.namespaceFormat = "sch" ∧
         p.operationIds = Option.some ["op"] ∧ p.operations = Option.none ∧
         p.scheduleType = "manual" ∧ p.geography = "auto" ∧
         ∃ q, (update_connection "w" "c" updInfoT (Except.ok catEmpty)).1 =
                Except.ok q ∧
              q.operations = Option.some
                [{ name := "Normalization", workspaceId := "w",
                   operatorType := "normalization",
                   normalizationOption := "basic" }] ∧
              q.namespaceDefinition = "destination" := by
  have T := connection_payload_policy "w" "op" "c" createInfoSchema updInfoT
    catEmpty catEmpty
  refine ⟨_, rfl, ?_⟩
  have h1 := T.1 _ rfl
  have h2 := T.2 _ rfl
  exact ⟨(h1.2.1 "sch" rfl (by decide)).1, (h1.2.1 "sch" rfl (by decide)).2,
    by simpa [createInfoSchema] using h1.2.2.1,
    h1.2.2.2.1, h1.2.2.2.2.1, h1.2.2.2.2.2,
    _, rfl, h2.2.2.1, h2.1⟩

/-- C9 counterexample: a 304 response is not 2xx, yet `abreq` raises no
status error — `res.raise_for_status()` only raises on 4xx/5xx — and
returns the parsed body instead. -/
theorem abreq_non2xx_cex :
    abreq (Option.some resp304) = Except.ok (PyVal.obj []) ∧
    resp304.status_code = 304 ∧ (304 < 200 ∨ 299 < 304) :=
  ⟨rfl, rfl, by decide⟩

/-- C9 amended: every `abreq` remote call carries the fixed 30-unit
request timeout; `abreq` raises a connectivity error (HTTP 500, "Error
connecting to Airbyte server") when the remote is unreachable, raises a
status error carrying the remote HTTP status code when the remote responds
with a 4xx/5xx status, and on any other response (all 2xx included) raises
neither, returning the parsed JSON body when the content type is JSON and
an empty dict otherwise; every error it raises is one of those two. -/
theorem abreq_behavior (resp : Option AirbyteResponse) :
    abreqTimeout = 30 ∧
    (resp = Option.none →
      abreq resp =
        Except.error (PyExc.httpError 500 "Error connecting to Airbyte server")) ∧
    (∀ r, resp = Option.some r → 400 ≤ r.status_code → r.status_code < 600 →
      abreq resp =
        Except.error (PyExc.httpError r.status_code "Something went wrong")) ∧
    (∀ r, resp = Option.some r → ¬ (400 ≤ r.status_code ∧ r.status_code < 600) →
      abreq resp =
        Except.ok (if r.contentTypeJson then r.body else PyVal.obj [])) ∧
    (∀ e, abreq resp = Except.error e →
      e = PyExc.httpError 500 "Error connecting to Airbyte server" ∨
      ∃ r, resp = Option.some r ∧
        e = PyExc.httpError r.status_code "Something went wrong" ∧
        400 ≤ r.status_code ∧ r.status_code < 600) := by
  refine ⟨rfl, ?_, ?_, ?_, ?_⟩
  · intro h; subst h; rfl
  · intro r h h4 h6; subst h
    simp [abreq, h4, h6]
  · intro r h hne; subst h
    simp only [abreq, hne, if_false]
    by_cases hct : r.contentTypeJson <;> simp [hct]
  · intro e he
    cases resp with
    | none =>
        left
        simpa [abreq] using he.symm
    | some r =>
        by_cases hr : 400 ≤ r.status_code ∧ r.status_code < 600
        · right
          simp [abreq, hr] at he
          exact ⟨r, rfl, he.symm, hr.1, hr.2⟩
        · exfalso
          by_cases hct : r.contentTypeJson <;> simp [abreq, hr, hct] at he

theorem abreq_behavior_witness :
    abreq (Option.some resp404) =
      Except.error (PyExc.httpError resp404.status_code "Something went wrong") := by
  have T := abreq_behavior (Option.some resp404)
  exact T.2.2.1 resp404 rfl (by decide) (by decide)

/-- C10: `get_source_schema_catalog` raises `AirbyteError` exactly when
the discover-schema response lacks a `catalog` key; with `jobInfo` present
the error carries `jobInfo.failureReason.externalMessage`, with neither
key present it carries the response's `message` field, and with `catalog`
present the response is returned unchanged. The two hypotheses pin down
the two remote error shapes the claim describes. -/
theorem get_source_schema_catalog_shapes (res : PyDict)
    (hJob : hasKey res "catalog" = false → hasKey res "jobInfo" = true →
      ∃ m, jobInfoFailureMessage res = Except.ok m)
    (hMsg : hasKey res "catalog" = false → hasKey res "jobInfo" = false →
      ∃ m, dictGet res "message" = Option.some m) :
    (hasKey res "catalog" = true →
      get_source_schema_catalog res = Except.ok res) ∧
    (∀ m, hasKey res "catalog" = false → hasKey res "jobInfo" = true →
      jobInfoFailureMessage res = Except.ok m →
      get_source_schema_catalog res =
        Except.error
          (PyExc.airbyteError "Failed to get source schema catalogs" m)) ∧
    (∀ m, hasKey res "catalog" = false → hasKey res "jobInfo" = false →
      dictGet res "message" = Option.some m →
      get_source_schema_catalog res =
        Except.error
          (PyExc.airbyteError "Failed to get source schema catalogs" m)) ∧
    ((∃ d errs, get_source_schema_catalog res =
        Except.error (PyExc.airbyteError d errs)) ↔
      hasKey res "catalog" = false) := by
  refine ⟨?_, ?_, ?_, ?_⟩
  · intro hc
    simp [get_source_schema_catalog, hc]
  · intro m hc hj hext
    simp [get_source_schema_catalog, hc, hj, hext]
  · intro m hc hj hmsg
    simp [get_source_schema_catalog, hc, hj, dictIndex, hmsg]
  · constructor
    · rintro ⟨d, errs, herr⟩
      by_contra hc
      have hc' : hasKey res "catalog" = true := by
        cases h : hasKey res "catalog" with
        | false => exact absurd h hc
        | true => rfl
      simp [get_source_schema_catalog, hc'] at herr
    · intro hc
      cases hj : hasKey res "jobInfo" with
      | true =>
          obtain ⟨m, hm⟩ := hJob hc hj
          exact ⟨"Failed to get source schema catalogs", m,
            by simp [get_source_schema_catalog, hc, hj, hm]⟩
      | false =>
          obtain ⟨m, hm⟩ := hMsg hc hj
          exact ⟨"Failed to get source schema catalogs", m,
            by simp [get_source_schema_catalog, hc, hj, dictIndex, hm]⟩

theorem get_source_schema_catalog_shapes_witness :
    get_source_schema_catalog resJobShape =
      Except.error (PyExc.airbyteError "Failed to get source schema catalogs"
        (PyVal.str "boom")) ∧
    get_source_schema_catalog resWithCatalog = Except.ok resWithCatalog :=
  ⟨(get_source_schema_catalog_shapes resJobShape
      (fun _ _ => ⟨PyVal.str "boom", rfl⟩)
      (fun _ h => absurd h (by decide))).2.1
      (PyVal.str "boom") (by decide) (by decide) rfl,
   (get_source_schema_catalog_shapes resWithCatalog
      (fun h _ => absurd h (by decide))
      (fun h _ => absurd h (by decide))).1 (by decide)⟩

/-- C5: in `run_dbt_commands` the three external-process steps run in the
strict order clean, deps, run; a failing step appends a failed event
recording the error as the final event, no later step's process is
invoked, and the output events of earlier successful steps remain in the
event sequence. -/
theorem run_dbt_commands_pipeline (orgdbt : OrgDbt) (dbtBinary : String)
    (cleanResult depsResult runResult : Except String (List String)) :
    (∀ e, cleanResult = Except.error e →
      (run_dbt_commands (Option.some orgdbt) true dbtBinary cleanResult
          depsResult runResult).invocations = [dbtCommand dbtBinary "clean"] ∧
      (run_dbt_commands (Option.some orgdbt) true dbtBinary cleanResult
          depsResult runResult).events.getLast? =
        Option.some { message := "dbt clean failed", status := "failed",
                      error := Option.some e, output := Option.none }) ∧
    (∀ out e, cleanResult = Except.ok out → depsResult = Except.error e →
      (run_dbt_commands (Option.some orgdbt) true dbtBinary cleanResult
          depsResult runResult).invocations =
        [dbtCommand dbtBinary "clean", dbtCommand dbtBinary "deps"] ∧
      (run_dbt_commands (Option.some orgdbt) true dbtBinary cleanResult
          depsResult runResult).events.getLast? =
        Option.some { message := "dbt deps failed", status := "failed",
                      error := Option.some e, output := Option.none } ∧
      ({ message := "dbt clean output", status := "running",
         error := Option.none, output := Option.some out } : Event) ∈
        (run_dbt_commands (Option.some orgdbt) true dbtBinary cleanResult
          depsResult runResult).events) ∧
    (∀ out out2 e, cleanResult = Except.ok out → depsResult = Except.ok out2 →
        runResult = Except.error e →
      (run_dbt_commands (Option.some orgdbt) true dbtBinary cleanResult
          depsResult runResult).invocations =
        [dbtCommand dbtBinary "clean", dbtCommand dbtBinary "deps",
         dbtCommand dbtBinary "run"] ∧
      (run_dbt_commands (Option.some orgdbt) true dbtBinary cleanResult
          depsResult runResult).events.getLast? =
        Option.some { message := "dbt run failed", status := "failed",
                      error := Option.some e, output := Option.none } ∧
      ({ message := "dbt clean output", status := "running",
         error := Option.none, output := Option.some out } : Event) ∈
        (run_dbt_commands (Option.some orgdbt) true dbtBinary cleanResult
          depsResult runResult).events ∧
      ({ message := "dbt deps output", status := "running",
         error := Option.none, output := Option.some out2 } : Event) ∈
        (run_dbt_commands (Option.some orgdbt) true dbtBinary cleanResult
          depsResult runResult).events) ∧
    (∀ out out2 out3, cleanResult = Except.ok out → depsResult = Except.ok out2 →
        runResult = Except.ok out3 →
      (run_dbt_commands (Option.some orgdbt) true dbtBinary cleanResult
          depsResult runResult).invocations =
        [dbtCommand dbtBinary "clean", dbtCommand dbtBinary "deps",
         dbtCommand dbtBinary "run"] ∧
      (run_dbt_commands (Option.some orgdbt) true dbtBinary cleanResult
          depsResult runResult).events.getLast? =
        Option.some (ev "dbt run completed" "completed")) := by
  refine ⟨?_, ?_, ?_, ?_⟩
  · intro e h; subst h
    exact ⟨rfl, rfl⟩
  · intro out e hc hd; subst hc; subst hd
    refine ⟨rfl, rfl, ?_⟩
    simp [run_dbt_commands, ev]
  · intro out out2 e hc hd hr; subst hc; subst hd; subst hr
    refine ⟨rfl, rfl, ?_, ?_⟩ <;> simp [run_dbt_commands, ev]
  · intro out out2 out3 hc hd hr; subst hc; subst hd; subst hr
    exact ⟨rfl, rfl⟩

theorem run_dbt_commands_pipeline_witness :
    ((Except.ok ["ok line"] : Except String (List String)) = Except.ok ["ok line"]) ∧
    ((Except.error "deps boom" : Except String (List String)) =
      Except.error "deps boom") ∧
    ((run_dbt_commands (Option.some orgdbt1) true "/venv/bin/dbt"
        (Except.ok ["ok line"]) (Except.error "deps boom")
        (Except.ok [])).invocations =
      [dbtCommand "/venv/bin/dbt" "clean", dbtCommand "/venv/bin/dbt" "deps"] ∧
     (run_dbt_commands (Option.some orgdbt1) true "/venv/bin/dbt"
        (Except.ok ["ok line"]) (Except.error "deps boom")
        (Except.ok [])).events.getLast? =
      Option.some { message := "dbt deps failed", status := "failed",
                    error := Option.some "deps boom", output := Option.none } ∧
     ({ message := "dbt clean output", status := "running",
        error := Option.none, output := Option.some ["ok line"] } : Event) ∈
       (run_dbt_commands (Option.some orgdbt1) true "/venv/bin/dbt"
          (Except.ok ["ok line"]) (Except.error "deps boom")
          (Except.ok [])).events) :=
  ⟨rfl, rfl,
   (run_dbt_commands_pipeline orgdbt1 "/venv/bin/dbt" (Except.ok ["ok line"])
      (Except.error "deps boom") (Except.ok [])).2.1 ["ok line"] "deps boom"
      rfl rfl⟩

/-- C6: `setup_dbtworkspace` with no warehouse appends a failed event
saying a warehouse must be set up first and creates/links no OrgDbt
record; when the git clone step fails, it likewise creates/links no
OrgDbt record and the clone-failure event is the final event. -/
theorem setup_dbtworkspace_no_orgdbt (w : Option OrgWarehouse)
    (slug root venv : String) (payload : SetupPayload)
    (pde dde : Bool) (cr : Except String Unit) :
    (w = Option.none →
      (setup_dbtworkspace w slug root venv payload pde dde cr).events =
        [ev "started" "running",
         ev "need to set up a warehouse first" "failed"] ∧
      (setup_dbtworkspace w slug root venv payload pde dde cr).savedDbt =
        Option.none ∧
      (setup_dbtworkspace w slug root venv payload pde dde cr).orgDbtLink =
        Option.none) ∧
    (∀ wh e, w = Option.some wh → cr = Except.error e →
      (setup_dbtworkspace w slug root venv payload pde dde cr).savedDbt =
        Option.none ∧
      (setup_dbtworkspace w slug root venv payload pde dde cr).orgDbtLink =
        Option.none ∧
      (setup_dbtworkspace w slug root venv payload pde dde cr).events.getLast? =
        Option.some { message := "git clone failed", status := "failed",
                      error := Option.some e, output := Option.none }) := by
  constructor
  · intro h; subst h
    exact ⟨rfl, rfl, rfl⟩
  · intro wh e hw hc; subst hw; subst hc
    cases pde <;> exact ⟨rfl, rfl, rfl⟩

theorem setup_dbtworkspace_no_orgdbt_witness :
    ((setup_dbtworkspace Option.none "o" "/r" "/v" payload1 true false
        (Except.ok ())).events =
      [ev "started" "running",
       ev "need to set up a warehouse first" "failed"] ∧
     (setup_dbtworkspace Option.none "o" "/r" "/v" payload1 true false
        (Except.ok ())).savedDbt = Option.none ∧
     (setup_dbtworkspace Option.none "o" "/r" "/v" payload1 true false
        (Except.ok ())).orgDbtLink = Option.none) ∧
    ((setup_dbtworkspace (Option.some wh1) "o" "/r" "/v" payload1 true false
        (Except.error "clone boom")).savedDbt = Option.none ∧
     (setup_dbtworkspace (Option.some wh1) "o" "/r" "/v" payload1 true false
        (Except.error "clone boom")).orgDbtLink = Option.none ∧
     (setup_dbtworkspace (Option.some wh1) "o" "/r" "/v" payload1 true false
        (Except.error "clone boom")).events.getLast? =
      Option.some { message := "git clone failed", status := "failed",
                    error := Option.some "clone boom",
                    output := Option.none }) :=
  ⟨(setup_dbtworkspace_no_orgdbt Option.none "o" "/r" "/v" payload1 true false
      (Except.ok ())).1 rfl,
   (setup_dbtworkspace_no_orgdbt (Option.some wh1) "o" "/r" "/v" payload1 true
      false (Except.error "clone boom")).2 wh1 "clone boom" rfl rfl⟩

/-- C7: in all three orchestrator tasks — standalone `clone_github_repo`,
`setup_dbtworkspace` and `run_dbt_commands` — a progress event with status
"failed" or "completed" is only ever the last event the task appends:
every earlier event has a non-terminal status. -/
theorem tasks_terminal_event_is_last :
    (∀ (pde dde : Bool) (cr : Except String Unit),
      ∀ e ∈ ((clone_github_repo pde dde cr false).1).dropLast,
        e.status ≠ "failed" ∧ e.status ≠ "completed") ∧
    (∀ (w : Option OrgWarehouse) (slug root venv : String)
       (payload : SetupPayload) (pde dde : Bool) (cr : Except String Unit),
      ∀ e ∈ (setup_dbtworkspace w slug root venv payload pde dde
                cr).events.dropLast,
        e.status ≠ "failed" ∧ e.status ≠ "completed") ∧
    (∀ (od : Option OrgDbt) (cp : Bool) (bin : String)
       (c d r : Except String (List String)),
      ∀ e ∈ (run_dbt_commands od cp bin c d r).events.dropLast,
        e.status ≠ "failed" ∧ e.status ≠ "completed") := by
  refine ⟨?_, ?_, ?_⟩
  · intro pde dde cr e he
    cases pde <;> cases cr <;> simp [clone_github_repo, ev] at he <;>
      simp [he]
  · intro w slug root venv payload pde dde cr e he
    cases w <;> [skip; (cases pde <;> cases cr)] <;>
      simp [setup_dbtworkspace, clone_github_repo, ev] at he <;>
      first
        | (rcases he with h | h | h <;> simp [h])
        | (rcases he with h | h <;> simp [h])
        | simp [he]
  · intro od cp bin c d r e he
    cases od <;> [skip; cases cp] <;> [skip; skip; (cases c <;> [skip; (cases d <;> [skip; cases r])])] <;>
      simp [run_dbt_commands, ev] at he <;>
      first
        | (rcases he with h | h | h | h | h | h | h <;> simp [h])
        | (rcases he with h | h | h | h | h | h <;> simp [h])
        | (rcases he with h | h | h | h | h <;> simp [h])
        | (rcases he with h | h | h | h <;> simp [h])
        | (rcases he with h | h | h <;> simp [h])
        | (rcases he with h | h <;> simp [h])
        | simp [he]

theorem tasks_terminal_event_is_last_witness :
    ∀ e ∈ ((clone_github_repo true false (Except.ok ()) false).1).dropLast,
      e.status ≠ "failed" ∧ e.status ≠ "completed" :=
  tasks_terminal_event_is_last.1 true false (Except.ok ())

/-- C8: each periodic sweep deletes exactly the lock rows whose
`locked_at` is strictly older than 3600 seconds before the sweep time and
retains every row at or after that boundary (a lock 3601 seconds old is
removed, one 3599 seconds old is retained), and the two sweeps are
registered to run every 60 seconds over the two distinct lock tables. -/
theorem lock_sweeps (now : Int) (blocks : List BlockLock)
    (tasks : List TaskLock) :
    (∀ l ∈ blocks,
      (l ∈ delete_old_blocklocks now blocks ↔ now - 3600 ≤ l.locked_at)) ∧
    (∀ l ∈ delete_old_blocklocks now blocks, l ∈ blocks) ∧
    (∀ l ∈ tasks,
      (l ∈ delete_old_tasklocks now tasks ↔ now - 3600 ≤ l.locked_at)) ∧
    (∀ l ∈ delete_old_tasklocks now tasks, l ∈ tasks) ∧
    (∀ l ∈ blocks, l.locked_at = now - 3601 →
      l ∉ delete_old_blocklocks now blocks) ∧
    (∀ l ∈ blocks, l.locked_at = now - 3599 →
      l ∈ delete_old_blocklocks now blocks) ∧
    setup_periodic_tasks =
      [(60, "remove old blocklocks"), (60, "remove old tasklocks")] := by
  refine ⟨?_, ?_, ?_, ?_, ?_, ?_, rfl⟩
  · intro l hl
    simp [delete_old_blocklocks, List.mem_filter, hl, not_lt]
  · intro l hl
    exact (List.mem_filter.mp hl).1
  · intro l hl
    simp [delete_old_tasklocks, List.mem_filter, hl, not_lt]
  · intro l hl
    exact (List.mem_filter.mp hl).1
  · intro l hl hage
    simp only [delete_old_blocklocks, List.mem_filter, hl, true_and,
      decide_eq_true_eq, not_lt, hage]
    omega
  · intro l hl hage
    simp only [delete_old_blocklocks, List.mem_filter, hl, true_and,
      decide_eq_true_eq, not_lt, hage]
    omega

theorem lock_sweeps_witness :
    blockOld ∉ delete_old_blocklocks 0 [blockOld, blockFresh] ∧
    blockFresh ∈ delete_old_blocklocks 0 [blockOld, blockFresh] ∧
    taskOld ∉ delete_old_tasklocks 0 [taskOld] ∧
    setup_periodic_tasks =
      [(60, "remove old blocklocks"), (60, "remove old tasklocks")] :=
  ⟨(lock_sweeps 0 [blockOld, blockFresh] [taskOld]).2.2.2.2.1 blockOld
      (by decide) (by decide),
   ((lock_sweeps 0 [blockOld, blockFresh] [taskOld]).1 blockFresh
      (by decide)).mpr (by decide),
   fun h => absurd (((lock_sweeps 0 [blockOld, blockFresh] [taskOld]).2.2.1
      taskOld (by decide)).mp h) (by decide),
   (lock_sweeps 0 [blockOld, blockFresh] [taskOld]).2.2.2.2.2.2⟩

end DDP
